import Mathlib

/-
Verification of the LargeDict disk-spillover key/value store
(src/data_structure.py of cyyever/naive_pytorch_lib).

The store keeps a per-key lifecycle state table (data_info), an in-memory
value map (data), a recency list of resident keys (time_to_key), and pages
values to a storage directory.  Every mutation of the table happens inside
one reentrant lock; background write and delete tasks re-check the state
they expect before acting.  We embed each lock-protected region as one
atomic function on an explicit LargeDict record.  The one disk write that
happens outside the lock (torch.save inside write_item) is folded into the
atomic step that immediately follows it, so a write task is two atomic
steps: its first re-check (write_item_1) and save-plus-second-re-check
(write_item_2).  Keys and opaque serialized values are modeled as Nat;
python dicts as association lists; the blobs under the storage directory
as an association list `disk`.
-/

/-- Lifecycle states of a key, from class DataInfo (data_structure.py lines 18-25). -/
inductive DataInfo
  | IN_MEMORY
  | IN_DISK
  | PRE_SAVING
  | SAVING
  | PRE_LOAD
  | LOADING
  | PRE_DELETE
deriving DecidableEq, Repr

/-- Python exceptions that the modeled code paths can raise. -/
inductive PyErr
  | keyError (k : Nat)
  | assertionError
  | runtimeError
  | fileNotFoundError
  | notADirectoryError
  | indexError
deriving DecidableEq, Repr

/-- Lookup in an association list modeling a python dict. -/
def alookup {α : Type} : List (Nat × α) → Nat → Option α
  | [], _ => none
  | (k', v) :: rest, k => if k = k' then some v else alookup rest k

/-- Remove a key from an association list (dict.pop / del). -/
def aerase {α : Type} : List (Nat × α) → Nat → List (Nat × α)
  | [], _ => []
  | (k', v) :: rest, k => if k' = k then aerase rest k else (k', v) :: aerase rest k

/-- Dict assignment d[k] = v. -/
def ainsert {α : Type} (m : List (Nat × α)) (k : Nat) (v : α) : List (Nat × α) :=
  (k, v) :: aerase m k

theorem alookup_aerase {α : Type} (m : List (Nat × α)) (k j : Nat) :
    alookup (aerase m k) j = if j = k then none else alookup m j := by
  induction m with
  | nil => simp [aerase, alookup]
  | cons p rest ih =>
    obtain ⟨k', v⟩ := p
    by_cases hk : k' = k
    · subst hk
      by_cases hj : j = k'
      · subst hj; simp [aerase, alookup, ih]
      · simp [aerase, alookup, hj, ih]
    · by_cases hj : j = k'
      · subst hj; simp [aerase, alookup, hk, Ne.symm hk]
      · simp [aerase, alookup, hk, hj, ih]

theorem alookup_ainsert {α : Type} (m : List (Nat × α)) (k j : Nat) (v : α) :
    alookup (ainsert m k v) j = if j = k then some v else alookup m j := by
  by_cases hj : j = k
  · subst hj; simp [ainsert, alookup]
  · simp [ainsert, alookup, hj, alookup_aerase]

theorem alookup_ainsert_self {α : Type} (m : List (Nat × α)) (k : Nat) (v : α) :
    alookup (ainsert m k v) k = some v := by
  simp [alookup_ainsert]

theorem alookup_ainsert_ne {α : Type} (m : List (Nat × α)) (k j : Nat) (v : α)
    (h : j ≠ k) : alookup (ainsert m k v) j = alookup m j := by
  simp [alookup_ainsert, h]

theorem alookup_aerase_self {α : Type} (m : List (Nat × α)) (k : Nat) :
    alookup (aerase m k) k = none := by
  simp [alookup_aerase]

theorem alookup_aerase_ne {α : Type} (m : List (Nat × α)) (k j : Nat)
    (h : j ≠ k) : alookup (aerase m k) j = alookup m j := by
  simp [alookup_aerase, h]

/-- Lookup in the constant-valued map built by the constructor's directory scan. -/
theorem alookup_map_const {α β : Type} (m : List (Nat × α)) (k : Nat) (c : β) :
    alookup (m.map (fun p => (p.1, c))) k = (alookup m k).map (fun _ => c) := by
  induction m with
  | nil => simp [alookup]
  | cons p rest ih =>
    obtain ⟨k', v⟩ := p
    by_cases hj : k = k'
    · subst hj; simp [alookup]
    · simp [alookup, hj, ih]

/--
The shared state of a LargeDict (data_structure.py lines 28-52).
`storage_dir` records whether a storage directory is set (true after the
constructor was given one or after set_storage_dir); `disk` models the
blob files under it; `write_queue` and `delete_queue` record enqueued
task keys in FIFO order.
-/
structure LargeDict where
  in_memory_key_number : Nat
  data : List (Nat × Nat)
  data_info : List (Nat × DataInfo)
  time_to_key : List Nat
  storage_dir : Bool
  flush_all_once : Bool
  permanent : Bool
  disk : List (Nat × Nat)
  write_queue : List Nat
  delete_queue : List Nat
deriving DecidableEq, Repr

namespace LargeDict

/--
Constructor (lines 29-52): with a storage directory the files found there
become IN_DISK table entries and the store is permanent; without one the
store is ephemeral and starts empty.
-/
def init (files : Option (List (Nat × Nat))) : LargeDict :=
  match files with
  | some fs =>
      { in_memory_key_number := 128
        data := []
        data_info := fs.map (fun p => (p.1, DataInfo.IN_DISK))
        time_to_key := []
        storage_dir := true
        flush_all_once := false
        permanent := true
        disk := fs
        write_queue := []
        delete_queue := [] }
  | none =>
      { in_memory_key_number := 128
        data := []
        data_info := []
        time_to_key := []
        storage_dir := false
        flush_all_once := false
        permanent := false
        disk := []
        write_queue := []
        delete_queue := [] }

/-- The recency update __update_access_time (lines 247-250): remove the key if present, append. -/
def touch (l : List Nat) (k : Nat) : List Nat :=
  l.erase k ++ [k]

/-- __setitem__ (lines 186-190): store the value, state IN_MEMORY, touch the recency list. -/
def setitem (ld : LargeDict) (k v : Nat) : LargeDict :=
  { ld with
      data := ainsert ld.data k v
      data_info := ainsert ld.data_info k DataInfo.IN_MEMORY
      time_to_key := touch ld.time_to_key k }

/--
__delitem__ (lines 192-197): asserts the key is in `data` and in
`data_info` (AssertionError otherwise), then sets state PRE_DELETE and
enqueues a delete task.  The value stays in `data`.
-/
def delitem (ld : LargeDict) (k : Nat) : Except PyErr LargeDict :=
  match alookup ld.data k with
  | none => .error .assertionError
  | some _ =>
    match alookup ld.data_info k with
    | none => .error .assertionError
    | some _ =>
      .ok { ld with
              data_info := ainsert ld.data_info k DataInfo.PRE_DELETE
              delete_queue := ld.delete_queue ++ [k] }

/--
__getitem__ = __load_item (lines 183-184, 226-238) with the inline
read_item call (lines 120-143).  The whole call holds the reentrant lock,
so it is one atomic step.  Absent from the table: KeyError.  Value in
`data`: state forced to IN_MEMORY, touch, return the value (no storage
access).  Otherwise state goes PRE_LOAD then (read_item first block)
LOADING; then the path computation raises RuntimeError when no storage
directory is set, torch.load raises when the blob is missing — either
failure leaves the key in state LOADING with no value; on success the
value enters `data`, state IN_MEMORY, touch.
-/
def getitem (ld : LargeDict) (k : Nat) : Except PyErr Nat × LargeDict :=
  match alookup ld.data_info k with
  | none => (.error (.keyError k), ld)
  | some _ =>
    match alookup ld.data k with
    | some v =>
        (.ok v,
         { ld with
             data_info := ainsert ld.data_info k DataInfo.IN_MEMORY
             time_to_key := touch ld.time_to_key k })
    | none =>
      if ld.storage_dir then
        match alookup ld.disk k with
        | some v =>
            (.ok v,
             { ld with
                 data := ainsert ld.data k v
                 data_info := ainsert (ainsert ld.data_info k DataInfo.LOADING) k DataInfo.IN_MEMORY
                 time_to_key := touch ld.time_to_key k })
        | none =>
            (.error .fileNotFoundError,
             { ld with data_info := ainsert ld.data_info k DataInfo.LOADING })
      else
        (.error .runtimeError,
         { ld with data_info := ainsert ld.data_info k DataInfo.LOADING })

/--
First lock block of write_item (lines 75-83): abort when the key vanished
or its state is no longer PRE_SAVING; otherwise set SAVING and capture the
value.  The value read large_dict.data[key] follows the state assignment,
so when the value is missing the task dies of KeyError with SAVING
already set (that situation is unreachable, see the invariant below).
-/
def write_item_1 (ld : LargeDict) (k : Nat) : Option Nat × LargeDict :=
  match alookup ld.data_info k with
  | none => (none, ld)
  | some st =>
    if st = DataInfo.PRE_SAVING then
      match alookup ld.data k with
      | some v => (some v, { ld with data_info := ainsert ld.data_info k DataInfo.SAVING })
      | none => (none, { ld with data_info := ainsert ld.data_info k DataInfo.SAVING })
    else (none, ld)

/--
Remainder of write_item (lines 85-102): the path computation raises
RuntimeError before the save when no storage directory is set (task dies,
no change); else torch.save writes the blob file, then the second lock
block re-checks: key vanished → shutil.rmtree(item_path) on the
just-saved blob, which is a regular file, so it raises NotADirectoryError
and the orphaned blob stays on disk; state no longer SAVING → abort (blob
stays); else drop the in-memory value, state IN_DISK, untrack from the
recency list.  `w` is the value captured by write_item_1; the second
component is the exception the task dies of, if any.
-/
def write_item_2 (ld : LargeDict) (k w : Nat) : LargeDict × Option PyErr :=
  if ld.storage_dir then
    let ld1 := { ld with disk := ainsert ld.disk k w }
    match alookup ld1.data_info k with
    | none => (ld1, some .notADirectoryError)
    | some st =>
      if st = DataInfo.SAVING then
        ({ ld1 with
             data_info := ainsert ld1.data_info k DataInfo.IN_DISK
             data := aerase ld1.data k
             time_to_key := ld1.time_to_key.erase k }, none)
      else (ld1, none)
  else (ld, some .runtimeError)

/--
delete_item (lines 104-118): the path computation (line 107) precedes the
lock and raises RuntimeError when no storage directory is set.  Under the
lock: key vanished or state no longer PRE_DELETE → no-op; else pop the
table entry, then pop the value (KeyError if it is absent — unreachable,
see the invariant below), untrack from the recency list, and
shutil.rmtree the blob path.  The pops have already happened when rmtree
runs, and rmtree always fails after them: the blob is a regular file, so
with a blob present it raises NotADirectoryError and the blob stays on
disk; with no blob it raises FileNotFoundError.
-/
def delete_item (ld : LargeDict) (k : Nat) : Option PyErr × LargeDict :=
  if ld.storage_dir then
    match alookup ld.data_info k with
    | none => (none, ld)
    | some st =>
      if st = DataInfo.PRE_DELETE then
        match alookup ld.data k with
        | none => (some (.keyError k), { ld with data_info := aerase ld.data_info k })
        | some _ =>
          let ld1 := { ld with
                         data_info := aerase ld.data_info k
                         data := aerase ld.data k
                         time_to_key := ld.time_to_key.erase k }
          match alookup ld1.disk k with
          | some _ => (some .notADirectoryError, ld1)
          | none => (some .fileNotFoundError, ld1)
      else (none, ld)
  else (some .runtimeError, ld)

/--
The while loop of flush_old_items (lines 61-67), by fuel.  While the
recency list is longer than the watermark or a flush-all was requested,
pop the oldest key, mark it PRE_SAVING and enqueue a write task.  Nothing
in the loop clears flush_all_once, so with it set the loop pops the empty
list once the list drains: the Bool result records that IndexError.
-/
def sweepLoop : LargeDict → Nat → LargeDict × Bool
  | ld, 0 => (ld, false)
  | ld, fuel + 1 =>
    if ld.time_to_key.length > ld.in_memory_key_number ∨ ld.flush_all_once = true then
      match ld.time_to_key with
      | [] => (ld, true)
      | k :: rest =>
          sweepLoop
            { ld with
                time_to_key := rest
                data_info := ainsert ld.data_info k DataInfo.PRE_SAVING
                write_queue := ld.write_queue ++ [k] }
            fuel
    else (ld, false)

/--
flush_old_items (lines 54-67), the periodic eviction sweep: with an empty
recency list it clears flush_all_once and returns; otherwise it runs the
demotion loop.  The Bool records whether the loop raised IndexError.
-/
def flush_old_items (ld : LargeDict) : LargeDict × Bool :=
  if ld.time_to_key.length = 0 then ({ ld with flush_all_once := false }, false)
  else sweepLoop ld (ld.time_to_key.length + 1)

/--
The marking part of flush_all (lines 154-157): sets permanent and requests
a flush-all from the next sweep.  The wait loop of flush_all only reads
time_to_key and is modeled by composing the draining sweep where needed.
-/
def flush_all_request (ld : LargeDict) : LargeDict :=
  { ld with permanent := true, flush_all_once := true }

/-- set_in_memory_key_number (lines 150-152). -/
def set_in_memory_key_number (ld : LargeDict) (n : Nat) : LargeDict :=
  { ld with in_memory_key_number := n }

/-- set_storage_dir (lines 145-148): records a storage directory (creating it). -/
def set_storage_dir (ld : LargeDict) : LargeDict :=
  { ld with storage_dir := true }

/--
release (lines 199-219): when permanent, flush_all marks a flush-all and
waits on the sweep that drains the recency list; the queue and thread
stops mutate no table state; finally, whenever a storage directory is
set, shutil.rmtree(storage_dir) removes the directory and every blob in
it.  The Bool reports whether the directory was removed.
-/
def release (ld : LargeDict) : LargeDict × Bool :=
  let ld1 := if ld.permanent then (flush_old_items (flush_all_request ld)).1 else ld
  if ld1.storage_dir then ({ ld1 with disk := [], storage_dir := false }, true)
  else (ld1, false)

end LargeDict

/-- Recency touch keeps the list duplicate-free. -/
theorem touch_nodup (l : List Nat) (k : Nat) (h : l.Nodup) : (LargeDict.touch l k).Nodup := by
  unfold LargeDict.touch
  rw [List.nodup_append]
  refine ⟨h.erase k, List.nodup_singleton k, ?_⟩
  intro a ha hb
  rw [List.mem_singleton] at hb
  subst hb
  exact (h.mem_erase_iff.1 ha).1 rfl

/-- Membership after a recency touch. -/
theorem mem_touch {l : List Nat} {k j : Nat} (h : l.Nodup) :
    j ∈ LargeDict.touch l k ↔ j = k ∨ (j ∈ l ∧ j ≠ k) := by
  unfold LargeDict.touch
  rw [List.mem_append, List.mem_singleton, h.mem_erase_iff]
  tauto

/--
One atomic step of the system: any lock-protected block of any foreground
call or background task, fired at any time (the task steps are not tied
to queue contents, which over-approximates the real schedules).
-/
inductive Step : LargeDict → LargeDict → Prop
  | set (ld : LargeDict) (k v : Nat) : Step ld (ld.setitem k v)
  | del (ld : LargeDict) (k : Nat) (ld' : LargeDict) :
      ld.delitem k = .ok ld' → Step ld ld'
  | get (ld : LargeDict) (k : Nat) : Step ld (ld.getitem k).2
  | sweep (ld : LargeDict) : Step ld (ld.flush_old_items).1
  | write1 (ld : LargeDict) (k : Nat) : Step ld (ld.write_item_1 k).2
  | write2 (ld : LargeDict) (k w : Nat) : Step ld (ld.write_item_2 k w).1
  | deltask (ld : LargeDict) (k : Nat) : Step ld (ld.delete_item k).2
  | flushreq (ld : LargeDict) : Step ld ld.flush_all_request
  | setwm (ld : LargeDict) (n : Nat) : Step ld (ld.set_in_memory_key_number n)
  | setdir (ld : LargeDict) : Step ld ld.set_storage_dir

/-- A constructor result. -/
def Initial (ld : LargeDict) : Prop :=
  ∃ files : Option (List (Nat × Nat)), ld = LargeDict.init files

/-- States reachable from some constructor result by atomic steps. -/
def Reachable (ld : LargeDict) : Prop :=
  ∃ ld0 : LargeDict, Initial ld0 ∧ Relation.ReflTransGen Step ld0 ld

/--
The inductive invariant of the store: the recency list is duplicate-free,
its members are IN_MEMORY or PRE_DELETE keys whose value is resident,
every resident value's key is IN_MEMORY, PRE_SAVING, SAVING or
PRE_DELETE, every table key without a resident value is IN_DISK, and
every IN_DISK key has a blob under a set storage directory.
-/
structure StrongInv (ld : LargeDict) : Prop where
  ttk_nodup : ld.time_to_key.Nodup
  ttk_state : ∀ k ∈ ld.time_to_key,
    alookup ld.data_info k = some DataInfo.IN_MEMORY ∨
    alookup ld.data_info k = some DataInfo.PRE_DELETE
  ttk_data : ∀ k ∈ ld.time_to_key, (alookup ld.data k).isSome
  data_state : ∀ k, (alookup ld.data k).isSome →
    alookup ld.data_info k = some DataInfo.IN_MEMORY ∨
    alookup ld.data_info k = some DataInfo.PRE_SAVING ∨
    alookup ld.data_info k = some DataInfo.SAVING ∨
    alookup ld.data_info k = some DataInfo.PRE_DELETE
  nodata_state : ∀ k st, alookup ld.data_info k = some st →
    alookup ld.data k = none → st = DataInfo.IN_DISK
  indisk_blob : ∀ k, alookup ld.data_info k = some DataInfo.IN_DISK →
    ld.storage_dir = true ∧ (alookup ld.disk k).isSome

theorem strongInv_init (files : Option (List (Nat × Nat))) :
    StrongInv (LargeDict.init files) := by
  cases files with
  | none =>
    constructor <;> simp [LargeDict.init, alookup]
  | some fs =>
    constructor
    · simp [LargeDict.init]
    · intro k hk
      simp [LargeDict.init] at hk
    · intro k hk
      simp [LargeDict.init] at hk
    · intro k hk
      simp [LargeDict.init, alookup] at hk
    · intro k st hst _
      simp only [LargeDict.init, alookup_map_const] at hst
      rcases hfk : alookup fs k with _ | v
      · rw [hfk] at hst; simp at hst
      · rw [hfk] at hst
        simp at hst
        exact hst.symm
    · intro k hst
      simp only [LargeDict.init, alookup_map_const] at hst ⊢
      rcases hfk : alookup fs k with _ | v
      · rw [hfk] at hst; simp at hst
      · simp [hfk]

theorem strongInv_setitem (ld : LargeDict) (k v : Nat) (h : StrongInv ld) :
    StrongInv (ld.setitem k v) := by
  constructor
  · exact touch_nodup _ _ h.ttk_nodup
  · intro j hj
    simp only [LargeDict.setitem] at hj ⊢
    rcases (mem_touch h.ttk_nodup).1 hj with hjk | ⟨hjl, hjk⟩
    · subst hjk
      left
      simp [alookup_ainsert_self]
    · rw [alookup_ainsert_ne _ _ _ _ hjk]
      exact h.ttk_state j hjl
  · intro j hj
    simp only [LargeDict.setitem] at hj ⊢
    rcases (mem_touch h.ttk_nodup).1 hj with hjk | ⟨hjl, hjk⟩
    · subst hjk
      simp [alookup_ainsert_self]
    · rw [alookup_ainsert_ne _ _ _ _ hjk]
      exact h.ttk_data j hjl
  · intro j hj
    simp only [LargeDict.setitem] at hj ⊢
    by_cases hjk : j = k
    · subst hjk
      left
      simp [alookup_ainsert_self]
    · rw [alookup_ainsert_ne _ _ _ _ hjk] at hj ⊢
      exact h.data_state j hj
  · intro j st hst hd
    simp only [LargeDict.setitem] at hst hd
    by_cases hjk : j = k
    · subst hjk
      rw [alookup_ainsert_self] at hd
      simp at hd
    · rw [alookup_ainsert_ne _ _ _ _ hjk] at hst hd
      exact h.nodata_state j st hst hd
  · intro j hst
    simp only [LargeDict.setitem] at hst ⊢
    by_cases hjk : j = k
    · subst hjk
      rw [alookup_ainsert_self] at hst
      simp at hst
    · rw [alookup_ainsert_ne _ _ _ _ hjk] at hst
      exact h.indisk_blob j hst

theorem strongInv_delitem (ld : LargeDict) (k : Nat) (ld' : LargeDict)
    (hdel : ld.delitem k = .ok ld') (h : StrongInv ld) : StrongInv ld' := by
  unfold LargeDict.delitem at hdel
  rcases hd : alookup ld.data k with _ | v
  · rw [hd] at hdel; simp at hdel
  rw [hd] at hdel
  rcases hi : alookup ld.data_info k with _ | st
  · rw [hi] at hdel; simp at hdel
  rw [hi] at hdel
  simp only [Except.ok.injEq] at hdel
  subst hdel
  constructor
  · exact h.ttk_nodup
  · intro j hj
    simp only at hj ⊢
    by_cases hjk : j = k
    · subst hjk
      right
      simp [alookup_ainsert_self]
    · rw [alookup_ainsert_ne _ _ _ _ hjk]
      exact h.ttk_state j hj
  · exact h.ttk_data
  · intro j hj
    simp only at hj ⊢
    by_cases hjk : j = k
    · subst hjk
      right; right; right
      simp [alookup_ainsert_self]
    · rw [alookup_ainsert_ne _ _ _ _ hjk]
      exact h.data_state j hj
  · intro j st' hst hdj
    simp only at hst hdj
    by_cases hjk : j = k
    · subst hjk
      rw [hd] at hdj
      simp at hdj
    · rw [alookup_ainsert_ne _ _ _ _ hjk] at hst
      exact h.nodata_state j st' hst hdj
  · intro j hst
    simp only at hst ⊢
    by_cases hjk : j = k
    · subst hjk
      rw [alookup_ainsert_self] at hst
      simp at hst
    · rw [alookup_ainsert_ne _ _ _ _ hjk] at hst
      exact h.indisk_blob j hst

/--
Preservation helper for the three code paths that leave key k resident
with state IN_MEMORY and touch the recency list (set, get of a resident
key, get completing an inline load).
-/
theorem strongInv_residentUpdate (ld : LargeDict) (k v : Nat)
    (d' : List (Nat × Nat)) (i' : List (Nat × DataInfo))
    (hd : ∀ j, alookup d' j = if j = k then some v else alookup ld.data j)
    (hi : ∀ j, alookup i' j = if j = k then some DataInfo.IN_MEMORY else alookup ld.data_info j)
    (h : StrongInv ld) :
    StrongInv { ld with data := d', data_info := i',
                        time_to_key := LargeDict.touch ld.time_to_key k } := by
  constructor
  · exact touch_nodup _ _ h.ttk_nodup
  · intro j hj
    simp only at hj ⊢
    rw [hi j]
    rcases (mem_touch h.ttk_nodup).1 hj with hjk | ⟨hjl, hjk⟩
    · subst hjk; simp
    · rw [if_neg hjk]
      exact h.ttk_state j hjl
  · intro j hj
    simp only at hj ⊢
    rw [hd j]
    rcases (mem_touch h.ttk_nodup).1 hj with hjk | ⟨hjl, hjk⟩
    · subst hjk; simp
    · rw [if_neg hjk]
      exact h.ttk_data j hjl
  · intro j hj
    simp only at hj ⊢
    rw [hi j]
    rw [hd j] at hj
    by_cases hjk : j = k
    · subst hjk; simp
    · rw [if_neg hjk] at hj ⊢
      exact h.data_state j hj
  · intro j st hst hdj
    simp only at hst hdj
    rw [hi j] at hst
    rw [hd j] at hdj
    by_cases hjk : j = k
    · subst hjk
      rw [if_pos rfl] at hdj
      simp at hdj
    · rw [if_neg hjk] at hst hdj
      exact h.nodata_state j st hst hdj
  · intro j hst
    simp only at hst ⊢
    rw [hi j] at hst
    by_cases hjk : j = k
    · subst hjk
      rw [if_pos rfl] at hst
      simp at hst
    · rw [if_neg hjk] at hst
      exact h.indisk_blob j hst

theorem strongInv_getitem (ld : LargeDict) (k : Nat) (h : StrongInv ld) :
    StrongInv (ld.getitem k).2 := by
  unfold LargeDict.getitem
  rcases hi : alookup ld.data_info k with _ | st
  · exact h
  dsimp only
  rcases hd : alookup ld.data k with _ | v
  · dsimp only
    have hst := h.nodata_state k st hi hd
    subst hst
    obtain ⟨hsd, hblob⟩ := h.indisk_blob k hi
    split
    · rcases hdsk : alookup ld.disk k with _ | w
      · rw [hdsk] at hblob
        simp at hblob
      · dsimp only
        refine strongInv_residentUpdate ld k w _ _ ?_ ?_ h
        · intro j
          rw [alookup_ainsert]
        · intro j
          by_cases hjk : j = k
          · subst hjk
            simp [alookup_ainsert_self]
          · simp [alookup_ainsert_ne _ _ _ _ hjk, hjk]
    · next hsd2 => exact absurd hsd hsd2
  · dsimp only
    refine strongInv_residentUpdate ld k v ld.data _ ?_ ?_ h
    · intro j
      by_cases hjk : j = k
      · subst hjk; simp [hd]
      · simp [hjk]
    · intro j
      rw [alookup_ainsert]

/-- Preservation helper for the first write_item block marking a key SAVING. -/
theorem strongInv_markSaving (ld : LargeDict) (k : Nat)
    (hi : alookup ld.data_info k = some DataInfo.PRE_SAVING)
    (hd : (alookup ld.data k).isSome = true) (h : StrongInv ld) :
    StrongInv { ld with data_info := ainsert ld.data_info k DataInfo.SAVING } := by
  constructor
  · exact h.ttk_nodup
  · intro j hj
    simp only at hj ⊢
    by_cases hjk : j = k
    · subst hjk
      have hh := h.ttk_state j hj
      rw [hi] at hh
      simp at hh
    · rw [alookup_ainsert_ne _ _ _ _ hjk]
      exact h.ttk_state j hj
  · exact h.ttk_data
  · intro j hj
    simp only at hj ⊢
    by_cases hjk : j = k
    · subst hjk
      right; right; left
      exact alookup_ainsert_self _ _ _
    · rw [alookup_ainsert_ne _ _ _ _ hjk]
      exact h.data_state j hj
  · intro j st' hst hdj
    simp only at hst hdj
    by_cases hjk : j = k
    · subst hjk
      rw [hdj] at hd
      simp at hd
    · rw [alookup_ainsert_ne _ _ _ _ hjk] at hst
      exact h.nodata_state j st' hst hdj
  · intro j hst
    simp only at hst ⊢
    by_cases hjk : j = k
    · subst hjk
      rw [alookup_ainsert_self] at hst
      simp at hst
    · rw [alookup_ainsert_ne _ _ _ _ hjk] at hst
      exact h.indisk_blob j hst

theorem strongInv_write1 (ld : LargeDict) (k : Nat) (h : StrongInv ld) :
    StrongInv (ld.write_item_1 k).2 := by
  unfold LargeDict.write_item_1
  rcases hi : alookup ld.data_info k with _ | st
  · exact h
  dsimp only
  split
  · next hps =>
    subst hps
    rcases hd : alookup ld.data k with _ | v
    · have hc := h.nodata_state k _ hi hd
      simp at hc
    · exact strongInv_markSaving ld k hi (by rw [hd]; rfl) h
  · exact h

theorem strongInv_write2 (ld : LargeDict) (k w : Nat) (h : StrongInv ld) :
    StrongInv (ld.write_item_2 k w).1 := by
  unfold LargeDict.write_item_2
  split
  · next hsd =>
    dsimp only
    rcases hi : alookup ld.data_info k with _ | st
    · dsimp only
      refine ⟨h.ttk_nodup, h.ttk_state, h.ttk_data, h.data_state, h.nodata_state, ?_⟩
      intro j hst
      dsimp only at hst ⊢
      have hj := h.indisk_blob j hst
      by_cases hjk : j = k
      · subst hjk
        refine ⟨hsd, ?_⟩
        rw [alookup_ainsert_self]
        rfl
      · rw [alookup_ainsert_ne _ _ _ _ hjk]
        exact ⟨hj.1, hj.2⟩
    · dsimp only
      split
      · next hsv =>
        subst hsv
        constructor
        · exact h.ttk_nodup.erase k
        · intro j hj
          dsimp only at hj ⊢
          have hjk : j ≠ k := (h.ttk_nodup.mem_erase_iff.1 hj).1
          have hjl : j ∈ ld.time_to_key := List.mem_of_mem_erase hj
          rw [alookup_ainsert_ne _ _ _ _ hjk]
          exact h.ttk_state j hjl
        · intro j hj
          dsimp only at hj ⊢
          have hjk : j ≠ k := (h.ttk_nodup.mem_erase_iff.1 hj).1
          have hjl : j ∈ ld.time_to_key := List.mem_of_mem_erase hj
          rw [alookup_aerase_ne _ _ _ hjk]
          exact h.ttk_data j hjl
        · intro j hjd
          dsimp only at hjd ⊢
          by_cases hjk : j = k
          · subst hjk
            rw [alookup_aerase_self] at hjd
            simp at hjd
          · rw [alookup_aerase_ne _ _ _ hjk] at hjd
            rw [alookup_ainsert_ne _ _ _ _ hjk]
            exact h.data_state j hjd
        · intro j st' hst hdj
          dsimp only at hst hdj
          by_cases hjk : j = k
          · subst hjk
            rw [alookup_ainsert_self] at hst
            exact (Option.some.inj hst).symm
          · rw [alookup_ainsert_ne _ _ _ _ hjk] at hst
            rw [alookup_aerase_ne _ _ _ hjk] at hdj
            exact h.nodata_state j st' hst hdj
        · intro j hst
          dsimp only at hst ⊢
          by_cases hjk : j = k
          · subst hjk
            refine ⟨hsd, ?_⟩
            rw [alookup_ainsert_self]
            rfl
          · rw [alookup_ainsert_ne _ _ _ _ hjk] at hst
            have hj := h.indisk_blob j hst
            rw [alookup_ainsert_ne _ _ _ _ hjk]
            exact ⟨hj.1, hj.2⟩
      · next hsv =>
        refine ⟨h.ttk_nodup, h.ttk_state, h.ttk_data, h.data_state, h.nodata_state, ?_⟩
        intro j hst
        dsimp only at hst ⊢
        by_cases hjk : j = k
        · subst hjk
          refine ⟨hsd, ?_⟩
          rw [alookup_ainsert_self]
          rfl
        · have hj := h.indisk_blob j hst
          rw [alookup_ainsert_ne _ _ _ _ hjk]
          exact ⟨hj.1, hj.2⟩
  · exact h

/--
Preservation helper for the delete task's main branch: key k leaves the
table, the value map and the recency list; the blob map becomes dsk.
-/
theorem strongInv_eraseKey (ld : LargeDict) (k : Nat) (dsk : List (Nat × Nat))
    (hdsk : ∀ j, j ≠ k → alookup dsk j = alookup ld.disk j)
    (h : StrongInv ld) :
    StrongInv { ld with data_info := aerase ld.data_info k, data := aerase ld.data k,
                        time_to_key := ld.time_to_key.erase k, disk := dsk } := by
  constructor
  · exact h.ttk_nodup.erase k
  · intro j hj
    dsimp only at hj ⊢
    have hjk : j ≠ k := (h.ttk_nodup.mem_erase_iff.1 hj).1
    have hjl : j ∈ ld.time_to_key := List.mem_of_mem_erase hj
    rw [alookup_aerase_ne _ _ _ hjk]
    exact h.ttk_state j hjl
  · intro j hj
    dsimp only at hj ⊢
    have hjk : j ≠ k := (h.ttk_nodup.mem_erase_iff.1 hj).1
    have hjl : j ∈ ld.time_to_key := List.mem_of_mem_erase hj
    rw [alookup_aerase_ne _ _ _ hjk]
    exact h.ttk_data j hjl
  · intro j hjd
    dsimp only at hjd ⊢
    by_cases hjk : j = k
    · subst hjk
      rw [alookup_aerase_self] at hjd
      simp at hjd
    · rw [alookup_aerase_ne _ _ _ hjk] at hjd
      rw [alookup_aerase_ne _ _ _ hjk]
      exact h.data_state j hjd
  · intro j st' hst hdj
    dsimp only at hst hdj
    by_cases hjk : j = k
    · subst hjk
      rw [alookup_aerase_self] at hst
      simp at hst
    · rw [alookup_aerase_ne _ _ _ hjk] at hst
      rw [alookup_aerase_ne _ _ _ hjk] at hdj
      exact h.nodata_state j st' hst hdj
  · intro j hst
    dsimp only at hst ⊢
    by_cases hjk : j = k
    · subst hjk
      rw [alookup_aerase_self] at hst
      simp at hst
    · rw [alookup_aerase_ne _ _ _ hjk] at hst
      have hj := h.indisk_blob j hst
      rw [hdsk j hjk]
      exact ⟨hj.1, hj.2⟩

theorem strongInv_deltask (ld : LargeDict) (k : Nat) (h : StrongInv ld) :
    StrongInv (ld.delete_item k).2 := by
  unfold LargeDict.delete_item
  split
  · rcases hi : alookup ld.data_info k with _ | st
    · exact h
    dsimp only
    split
    · next hpd =>
      subst hpd
      rcases hd : alookup ld.data k with _ | v
      · dsimp only
        constructor
        · exact h.ttk_nodup
        · intro j hj
          dsimp only at hj ⊢
          have hjk : j ≠ k := by
            intro he
            subst he
            have hkd := h.ttk_data j hj
            rw [hd] at hkd
            simp at hkd
          rw [alookup_aerase_ne _ _ _ hjk]
          exact h.ttk_state j hj
        · exact h.ttk_data
        · intro j hjd
          dsimp only at hjd ⊢
          by_cases hjk : j = k
          · subst hjk
            rw [hd] at hjd
            simp at hjd
          · rw [alookup_aerase_ne _ _ _ hjk]
            exact h.data_state j hjd
        · intro j st' hst hdj
          dsimp only at hst hdj
          by_cases hjk : j = k
          · subst hjk
            rw [alookup_aerase_self] at hst
            simp at hst
          · rw [alookup_aerase_ne _ _ _ hjk] at hst
            exact h.nodata_state j st' hst hdj
        · intro j hst
          dsimp only at hst ⊢
          by_cases hjk : j = k
          · subst hjk
            rw [alookup_aerase_self] at hst
            simp at hst
          · rw [alookup_aerase_ne _ _ _ hjk] at hst
            exact h.indisk_blob j hst
      · dsimp only
        rcases hdsk2 : alookup ld.disk k with _ | w
        · exact strongInv_eraseKey ld k ld.disk (fun j _ => rfl) h
        · exact strongInv_eraseKey ld k ld.disk (fun j _ => rfl) h
    · exact h
  · exact h

/-- Preservation of one iteration of the eviction loop. -/
theorem strongInv_sweepStep (ld : LargeDict) (k : Nat) (rest : List Nat)
    (httk : ld.time_to_key = k :: rest) (h : StrongInv ld) :
    StrongInv { ld with time_to_key := rest,
                        data_info := ainsert ld.data_info k DataInfo.PRE_SAVING,
                        write_queue := ld.write_queue ++ [k] } := by
  have hnd := h.ttk_nodup
  rw [httk] at hnd
  have hkrest : k ∉ rest := (List.nodup_cons.1 hnd).1
  constructor
  · exact (List.nodup_cons.1 hnd).2
  · intro j hj
    dsimp only at hj ⊢
    have hjk : j ≠ k := fun he => hkrest (he ▸ hj)
    have hjmem : j ∈ ld.time_to_key := by
      rw [httk]
      exact List.mem_cons_of_mem _ hj
    rw [alookup_ainsert_ne _ _ _ _ hjk]
    exact h.ttk_state j hjmem
  · intro j hj
    dsimp only at hj ⊢
    have hjmem : j ∈ ld.time_to_key := by
      rw [httk]
      exact List.mem_cons_of_mem _ hj
    exact h.ttk_data j hjmem
  · intro j hj
    dsimp only at hj ⊢
    by_cases hjk : j = k
    · subst hjk
      right; left
      exact alookup_ainsert_self _ _ _
    · rw [alookup_ainsert_ne _ _ _ _ hjk]
      exact h.data_state j hj
  · intro j st hst hdj
    dsimp only at hst hdj
    by_cases hjk : j = k
    · subst hjk
      have hks : (alookup ld.data j).isSome := by
        refine h.ttk_data j ?_
        rw [httk]
        exact List.mem_cons_self _ _
      rw [hdj] at hks
      simp at hks
    · rw [alookup_ainsert_ne _ _ _ _ hjk] at hst
      exact h.nodata_state j st hst hdj
  · intro j hst
    dsimp only at hst ⊢
    by_cases hjk : j = k
    · subst hjk
      rw [alookup_ainsert_self] at hst
      simp at hst
    · rw [alookup_ainsert_ne _ _ _ _ hjk] at hst
      exact h.indisk_blob j hst

theorem strongInv_sweepLoop (fuel : Nat) : ∀ ld : LargeDict, StrongInv ld →
    StrongInv (LargeDict.sweepLoop ld fuel).1 := by
  induction fuel with
  | zero =>
    intro ld h
    exact h
  | succ n ih =>
    intro ld h
    unfold LargeDict.sweepLoop
    split
    · split
      · exact h
      · next k rest httk => exact ih _ (strongInv_sweepStep ld k rest httk h)
    · exact h

theorem strongInv_sweep (ld : LargeDict) (h : StrongInv ld) :
    StrongInv (ld.flush_old_items).1 := by
  unfold LargeDict.flush_old_items
  split
  · exact ⟨h.ttk_nodup, h.ttk_state, h.ttk_data, h.data_state, h.nodata_state, h.indisk_blob⟩
  · exact strongInv_sweepLoop _ ld h

theorem strongInv_flushreq (ld : LargeDict) (h : StrongInv ld) :
    StrongInv ld.flush_all_request :=
  ⟨h.ttk_nodup, h.ttk_state, h.ttk_data, h.data_state, h.nodata_state,
   fun k hk => ⟨(h.indisk_blob k hk).1, (h.indisk_blob k hk).2⟩⟩

theorem strongInv_setwm (ld : LargeDict) (n : Nat) (h : StrongInv ld) :
    StrongInv (ld.set_in_memory_key_number n) :=
  ⟨h.ttk_nodup, h.ttk_state, h.ttk_data, h.data_state, h.nodata_state,
   fun k hk => ⟨(h.indisk_blob k hk).1, (h.indisk_blob k hk).2⟩⟩

theorem strongInv_setdir (ld : LargeDict) (h : StrongInv ld) :
    StrongInv ld.set_storage_dir :=
  ⟨h.ttk_nodup, h.ttk_state, h.ttk_data, h.data_state, h.nodata_state,
   fun k hk => ⟨rfl, (h.indisk_blob k hk).2⟩⟩

/-- Every atomic step preserves the invariant. -/
theorem strongInv_step (ld ld' : LargeDict) (hs : Step ld ld') (h : StrongInv ld) :
    StrongInv ld' := by
  cases hs with
  | set k v => exact strongInv_setitem ld k v h
  | del k ld2 hd2 => exact strongInv_delitem ld k ld' hd2 h
  | get k => exact strongInv_getitem ld k h
  | sweep => exact strongInv_sweep ld h
  | write1 k => exact strongInv_write1 ld k h
  | write2 k w => exact strongInv_write2 ld k w h
  | deltask k => exact strongInv_deltask ld k h
  | flushreq => exact strongInv_flushreq ld h
  | setwm n => exact strongInv_setwm ld n h
  | setdir => exact strongInv_setdir ld h

/-- Every reachable state satisfies the invariant. -/
theorem strongInv_reachable (ld : LargeDict) (h : Reachable ld) : StrongInv ld := by
  obtain ⟨ld0, ⟨files, hinit⟩, hsteps⟩ := h
  subst hinit
  induction hsteps with
  | refl => exact strongInv_init files
  | tail hab hbc ih => exact strongInv_step _ _ hbc ih

/--
Computation of get on a key whose value is resident: whatever the current
state, it is overwritten with IN_MEMORY, the key is touched, and the
resident value is returned without consulting the storage backend.
-/
theorem getitem_present (ld : LargeDict) (k v : Nat)
    (hd : alookup ld.data k = some v) (hi : (alookup ld.data_info k).isSome = true) :
    ld.getitem k =
      (.ok v, { ld with data_info := ainsert ld.data_info k DataInfo.IN_MEMORY,
                        time_to_key := LargeDict.touch ld.time_to_key k }) := by
  unfold LargeDict.getitem
  rcases hio : alookup ld.data_info k with _ | st
  · rw [hio] at hi
    simp at hi
  · rw [hd]

/-- The delete task leaves the state unchanged when the key's state is not PRE_DELETE. -/
theorem delete_item_state_noop (ld : LargeDict) (k : Nat) (st : DataInfo)
    (hi : alookup ld.data_info k = some st) (hst : st ≠ DataInfo.PRE_DELETE) :
    (ld.delete_item k).2 = ld := by
  unfold LargeDict.delete_item
  split
  · rw [hi]
    dsimp only
    rw [if_neg hst]
  · rfl

/-- The first write block aborts without effect when the key's state is not PRE_SAVING. -/
theorem write_item_1_noop (ld : LargeDict) (k : Nat) (st : DataInfo)
    (hi : alookup ld.data_info k = some st) (hst : st ≠ DataInfo.PRE_SAVING) :
    ld.write_item_1 k = (none, ld) := by
  unfold LargeDict.write_item_1
  rw [hi]
  dsimp only
  rw [if_neg hst]

/--
The second write block aborts without touching the table (value map, state
table, recency list) when the key's state is no longer SAVING.
-/
theorem write_item_2_abort (ld : LargeDict) (k w : Nat) (st : DataInfo)
    (hi : alookup ld.data_info k = some st) (hst : st ≠ DataInfo.SAVING) :
    (ld.write_item_2 k w).1.data = ld.data ∧
    (ld.write_item_2 k w).1.data_info = ld.data_info ∧
    (ld.write_item_2 k w).1.time_to_key = ld.time_to_key := by
  unfold LargeDict.write_item_2
  split
  · dsimp only
    rw [hi]
    dsimp only
    rw [if_neg hst]
    exact ⟨rfl, rfl, rfl⟩
  · exact ⟨rfl, rfl, rfl⟩

/-- An ephemeral store fresh from the constructor. -/
def exLd0 : LargeDict := LargeDict.init none

/-- After set(0, 5). -/
def exLd1 : LargeDict := exLd0.setitem 0 5

/-- After set(0, 5) then delete(0), before the delete task has run. -/
def exLd2 : LargeDict :=
  match exLd1.delitem 0 with
  | .ok l => l
  | .error _ => exLd1

/-- exLd2 with a flush-all requested, just before the sweep fires. -/
def exLd3 : LargeDict := exLd2.flush_all_request

/-- A store constructed over a storage directory already holding a blob for key 0. -/
def exDisk : LargeDict := LargeDict.init (some [(0, 7)])

/-- A permanent store holding one fresh entry. -/
def exP1 : LargeDict := (LargeDict.init (some [])).setitem 0 5

/-- exP1 with the watermark dropped to 0 and one sweep run: key 0 is PRE_SAVING. -/
def exPS : LargeDict := ((exP1.set_in_memory_key_number 0).flush_old_items).1

/-- exPS after the first write block: key 0 is SAVING with captured value 5. -/
def exSV : LargeDict := (exPS.write_item_1 0).2

theorem exLd2_delitem : exLd1.delitem 0 = .ok exLd2 := rfl

theorem exLd1_reachable : Reachable exLd1 :=
  ⟨exLd0, ⟨none, rfl⟩, Relation.ReflTransGen.single (Step.set exLd0 0 5)⟩

theorem exLd2_reachable : Reachable exLd2 :=
  ⟨exLd0, ⟨none, rfl⟩,
   Relation.ReflTransGen.tail (Relation.ReflTransGen.single (Step.set exLd0 0 5))
     (Step.del exLd1 0 exLd2 exLd2_delitem)⟩

theorem exLd3_reachable : Reachable exLd3 :=
  ⟨exLd0, ⟨none, rfl⟩,
   Relation.ReflTransGen.tail
     (Relation.ReflTransGen.tail (Relation.ReflTransGen.single (Step.set exLd0 0 5))
       (Step.del exLd1 0 exLd2 exLd2_delitem))
     (Step.flushreq exLd2)⟩

/-- The states claim C4 allows for a key whose value is resident. -/
def c4PresentOK (ld : LargeDict) (k : Nat) : Prop :=
  alookup ld.data_info k = some DataInfo.IN_MEMORY ∨
  alookup ld.data_info k = some DataInfo.PRE_SAVING ∨
  alookup ld.data_info k = some DataInfo.SAVING ∨
  alookup ld.data_info k = some DataInfo.LOADING ∨
  alookup ld.data_info k = some DataInfo.PRE_LOAD

/-- The states claim C4 allows for a key without a resident value. -/
def c4AbsentOK (ld : LargeDict) (k : Nat) : Prop :=
  alookup ld.data_info k = none ∨
  alookup ld.data_info k = some DataInfo.IN_DISK ∨
  alookup ld.data_info k = some DataInfo.PRE_LOAD ∨
  alookup ld.data_info k = some DataInfo.PRE_DELETE

/-- The invariant claim C4 states, for one key. -/
def c4KeyClaim (ld : LargeDict) (k : Nat) : Prop :=
  ((alookup ld.data k).isSome = true → c4PresentOK ld k) ∧
  (alookup ld.data k = none → c4AbsentOK ld k)

/-- Claim C4 amended: PRE_DELETE joins the allowed states of a value-present key. -/
def c4KeyAmended (ld : LargeDict) (k : Nat) : Prop :=
  ((alookup ld.data k).isSome = true →
    (c4PresentOK ld k ∨ alookup ld.data_info k = some DataInfo.PRE_DELETE)) ∧
  (alookup ld.data k = none → c4AbsentOK ld k)

/--
C4 (amended): in every reachable state, a key with a resident value is
IN_MEMORY, PRE_SAVING, SAVING, LOADING, PRE_LOAD or PRE_DELETE (delete
leaves the value in the map until the delete task runs), and a key
without a resident value is IN_DISK, PRE_LOAD, PRE_DELETE or absent from
the table.
-/
theorem c4_amended (ld : LargeDict) (hr : Reachable ld) (k : Nat) : c4KeyAmended ld k := by
  have h := strongInv_reachable ld hr
  constructor
  · intro hd
    rcases h.data_state k hd with h1 | h1 | h1 | h1
    · exact Or.inl (Or.inl h1)
    · exact Or.inl (Or.inr (Or.inl h1))
    · exact Or.inl (Or.inr (Or.inr (Or.inl h1)))
    · exact Or.inr h1
  · intro hd
    rcases hio : alookup ld.data_info k with _ | st
    · exact Or.inl hio
    · have hst := h.nodata_state k st hio hd
      rw [hst] at hio
      exact Or.inr (Or.inl hio)

theorem c4_amended_witness : c4KeyAmended exLd1 0 :=
  c4_amended exLd1 exLd1_reachable 0

/--
C4 counterexample: the reachable state set(0,5); delete(0) has key 0 with
a resident value (5) while in state PRE_DELETE, which the claim's
invariant rules out.
-/
theorem c4_counterexample :
    Reachable exLd2 ∧ alookup exLd2.data 0 = some 5 ∧
    alookup exLd2.data_info 0 = some DataInfo.PRE_DELETE ∧ ¬ c4KeyClaim exLd2 0 := by
  refine ⟨exLd2_reachable, by decide, by decide, ?_⟩
  simp only [c4KeyClaim, c4PresentOK, c4AbsentOK]
  decide

/-- The invariant claim C9 states: no duplicates, and only IN_MEMORY keys. -/
def c9Claim (ld : LargeDict) : Prop :=
  ld.time_to_key.Nodup ∧
  ∀ k ∈ ld.time_to_key, alookup ld.data_info k = some DataInfo.IN_MEMORY

/-- Claim C9 amended: a deleted key stays in the sequence until its delete task runs. -/
def c9Amended (ld : LargeDict) : Prop :=
  ld.time_to_key.Nodup ∧
  ∀ k ∈ ld.time_to_key,
    alookup ld.data_info k = some DataInfo.IN_MEMORY ∨
    alookup ld.data_info k = some DataInfo.PRE_DELETE

/--
C9 (amended): in every reachable state the recency sequence is
duplicate-free and every member is in state IN_MEMORY or PRE_DELETE (a
delete leaves its key in the sequence until the delete task runs, and the
sweep will demote such a key).
-/
theorem c9_amended (ld : LargeDict) (hr : Reachable ld) : c9Amended ld :=
  let h := strongInv_reachable ld hr
  ⟨h.ttk_nodup, h.ttk_state⟩

theorem c9_amended_witness : c9Amended exLd2 :=
  c9_amended exLd2 exLd2_reachable

/--
C9 counterexample: in the reachable state set(0,5); delete(0); flush-all
requested, the sequence holds key 0 in state PRE_DELETE at the moment the
sweep runs, and the sweep then demotes it to PRE_SAVING, overwriting the
pending delete.
-/
theorem c9_counterexample :
    Reachable exLd3 ∧ 0 ∈ exLd3.time_to_key ∧
    alookup exLd3.data_info 0 = some DataInfo.PRE_DELETE ∧
    alookup (exLd3.flush_old_items).1.data_info 0 = some DataInfo.PRE_SAVING ∧
    ¬ c9Claim exLd3 := by
  refine ⟨exLd3_reachable, by decide, by decide, by decide, ?_⟩
  simp only [c9Claim]
  decide

/--
C1 counterexample: with key 0 holding value 5, delete(0) returns
successfully, and before the delete task runs get(0) returns the
pre-delete value 5 instead of failing.
-/
theorem c1_counterexample :
    Reachable exLd1 ∧ alookup exLd1.data 0 = some 5 ∧
    exLd1.delitem 0 = .ok exLd2 ∧ (exLd2.getitem 0).1 = .ok 5 :=
  ⟨exLd1_reachable, by decide, exLd2_delitem, rfl⟩

/--
C1 (amended): after delete(k) returns and before the delete task runs,
get(k) succeeds and returns the pre-delete value (the value is still in
the in-memory map and get checks the map before the state), resets the
state to IN_MEMORY, and the pending delete task then aborts as a no-op.
-/
theorem c1_amended (ld ld' : LargeDict) (k v : Nat)
    (hv : alookup ld.data k = some v) (hdel : ld.delitem k = .ok ld') :
    (ld'.getitem k).1 = .ok v ∧
    alookup (ld'.getitem k).2.data_info k = some DataInfo.IN_MEMORY ∧
    ((ld'.getitem k).2.delete_item k).2 = (ld'.getitem k).2 := by
  unfold LargeDict.delitem at hdel
  rw [hv] at hdel
  rcases hio : alookup ld.data_info k with _ | st
  · rw [hio] at hdel
    exact absurd hdel (by simp)
  rw [hio] at hdel
  dsimp only at hdel
  have hld' : ld' = { ld with data_info := ainsert ld.data_info k DataInfo.PRE_DELETE,
                              delete_queue := ld.delete_queue ++ [k] } :=
    (Except.ok.inj hdel).symm
  subst hld'
  have hg := getitem_present
    { ld with data_info := ainsert ld.data_info k DataInfo.PRE_DELETE,
              delete_queue := ld.delete_queue ++ [k] } k v hv
    (by rw [alookup_ainsert_self]; rfl)
  rw [hg]
  refine ⟨rfl, ?_, ?_⟩
  · exact alookup_ainsert_self _ _ _
  · exact delete_item_state_noop _ k DataInfo.IN_MEMORY (alookup_ainsert_self _ _ _) (by decide)

theorem c1_amended_witness :
    (exLd2.getitem 0).1 = .ok 5 ∧
    alookup (exLd2.getitem 0).2.data_info 0 = some DataInfo.IN_MEMORY ∧
    ((exLd2.getitem 0).2.delete_item 0).2 = (exLd2.getitem 0).2 :=
  c1_amended exLd1 exLd2 0 5 (by decide) exLd2_delitem

/--
C3 counterexample: a store opened over a directory with a blob for key 0
starts with key 0 present in the table in state IN_DISK, yet delete(0)
fails with an assertion error because the key has no entry in the
in-memory value map.
-/
theorem c3_counterexample :
    Reachable exDisk ∧ alookup exDisk.data_info 0 = some DataInfo.IN_DISK ∧
    exDisk.delitem 0 = .error PyErr.assertionError :=
  ⟨⟨exDisk, ⟨some [(0, 7)], rfl⟩, Relation.ReflTransGen.refl⟩, by decide, rfl⟩

/--
C3 (amended): delete(k) fails (with an assertion error, not KeyNotFound)
exactly when k is absent from the in-memory value map or from the table —
in particular it fails for an IN_DISK key.  When k is present in both,
delete(k) succeeds, sets state PRE_DELETE and enqueues a delete task;
when a storage directory is set, the delete task then removes the table
entry, the in-memory value and the recency entry, but fails to remove the
on-disk blob: shutil.rmtree on the blob path runs after the pops and
raises NotADirectoryError on the blob file when one exists
(FileNotFoundError when none does), leaving the blob map unchanged.
-/
theorem c3_amended (ld : LargeDict) (k : Nat) (hn : ld.time_to_key.Nodup) :
    ((alookup ld.data k = none ∨ alookup ld.data_info k = none) →
      ld.delitem k = .error PyErr.assertionError) ∧
    (∀ v st, alookup ld.data k = some v → alookup ld.data_info k = some st →
      ∃ ld', ld.delitem k = .ok ld' ∧
        alookup ld'.data_info k = some DataInfo.PRE_DELETE ∧
        ld'.delete_queue = ld.delete_queue ++ [k] ∧
        (ld.storage_dir = true →
          alookup (ld'.delete_item k).2.data_info k = none ∧
          alookup (ld'.delete_item k).2.data k = none ∧
          k ∉ (ld'.delete_item k).2.time_to_key ∧
          (ld'.delete_item k).2.disk = ld.disk ∧
          ((alookup ld.disk k).isSome = true →
            (ld'.delete_item k).1 = some PyErr.notADirectoryError) ∧
          (alookup ld.disk k = none →
            (ld'.delete_item k).1 = some PyErr.fileNotFoundError))) := by
  constructor
  · intro hor
    unfold LargeDict.delitem
    rcases hd : alookup ld.data k with _ | v
    · rfl
    · rcases hor with h1 | h1
      · rw [hd] at h1
        simp at h1
      · rw [h1]
  · intro v st hd hi
    refine ⟨{ ld with data_info := ainsert ld.data_info k DataInfo.PRE_DELETE,
                      delete_queue := ld.delete_queue ++ [k] }, ?_, ?_, ?_, ?_⟩
    · unfold LargeDict.delitem
      rw [hd]
      dsimp only
      rw [hi]
    · exact alookup_ainsert_self _ _ _
    · rfl
    · intro hsd
      unfold LargeDict.delete_item
      split
      · try dsimp only
        rw [alookup_ainsert_self]
        try dsimp only
        rw [if_pos rfl]
        try dsimp only
        rw [hd]
        try dsimp only
        rcases hdsk : alookup ld.disk k with _ | w
        · try dsimp only
          refine ⟨?_, ?_, ?_, rfl, ?_, ?_⟩
          · rw [alookup_aerase_self]
          · rw [alookup_aerase_self]
          · intro hmem
            exact ((hn.mem_erase_iff).1 hmem).1 rfl
          · intro hsome
            simp at hsome
          · intro _
            rfl
        · try dsimp only
          refine ⟨?_, ?_, ?_, rfl, ?_, ?_⟩
          · rw [alookup_aerase_self]
          · rw [alookup_aerase_self]
          · intro hmem
            exact ((hn.mem_erase_iff).1 hmem).1 rfl
          · intro _
            rfl
          · intro hnone
            simp at hnone
      · next hsd2 => exact absurd hsd hsd2

/-- A store opened over a directory with a blob for key 0, after set(0, 9): value resident, blob on disk. -/
def exDP : LargeDict := exDisk.setitem 0 9

theorem c3_amended_witness :
    ((alookup exDP.data 0 = none ∨ alookup exDP.data_info 0 = none) →
      exDP.delitem 0 = .error PyErr.assertionError) ∧
    (∀ v st, alookup exDP.data 0 = some v → alookup exDP.data_info 0 = some st →
      ∃ ld', exDP.delitem 0 = .ok ld' ∧
        alookup ld'.data_info 0 = some DataInfo.PRE_DELETE ∧
        ld'.delete_queue = exDP.delete_queue ++ [0] ∧
        (exDP.storage_dir = true →
          alookup (ld'.delete_item 0).2.data_info 0 = none ∧
          alookup (ld'.delete_item 0).2.data 0 = none ∧
          0 ∉ (ld'.delete_item 0).2.time_to_key ∧
          (ld'.delete_item 0).2.disk = exDP.disk ∧
          ((alookup exDP.disk 0).isSome = true →
            (ld'.delete_item 0).1 = some PyErr.notADirectoryError) ∧
          (alookup exDP.disk 0 = none →
            (ld'.delete_item 0).1 = some PyErr.fileNotFoundError))) :=
  c3_amended exDP 0 (by decide)

/--
C5: a set(k, v2) issued while k is PRE_SAVING or SAVING forces the state
to IN_MEMORY, so the in-flight write task fails whichever re-check it
reaches next and leaves the table untouched, and get(k) returns v2 both
before and after the aborted task.
-/
theorem c5_supersession (ld : LargeDict) (k v2 : Nat)
    (_h : alookup ld.data_info k = some DataInfo.PRE_SAVING ∨
          alookup ld.data_info k = some DataInfo.SAVING) :
    (ld.setitem k v2).write_item_1 k = (none, ld.setitem k v2) ∧
    (∀ w, ((ld.setitem k v2).write_item_2 k w).1.data = (ld.setitem k v2).data ∧
          ((ld.setitem k v2).write_item_2 k w).1.data_info = (ld.setitem k v2).data_info ∧
          ((ld.setitem k v2).write_item_2 k w).1.time_to_key = (ld.setitem k v2).time_to_key) ∧
    ((ld.setitem k v2).getitem k).1 = .ok v2 ∧
    (∀ w, ((((ld.setitem k v2).write_item_2 k w).1).getitem k).1 = .ok v2) := by
  have him : alookup (ld.setitem k v2).data_info k = some DataInfo.IN_MEMORY :=
    alookup_ainsert_self _ _ _
  have hdm : alookup (ld.setitem k v2).data k = some v2 :=
    alookup_ainsert_self _ _ _
  refine ⟨?_, ?_, ?_, ?_⟩
  · exact write_item_1_noop _ k DataInfo.IN_MEMORY him (by decide)
  · intro w
    exact write_item_2_abort _ k w DataInfo.IN_MEMORY him (by decide)
  · rw [getitem_present _ k v2 hdm (by rw [him]; rfl)]
  · intro w
    obtain ⟨habd, habi, _⟩ := write_item_2_abort (ld.setitem k v2) k w DataInfo.IN_MEMORY him (by decide)
    have hdm2 : alookup ((ld.setitem k v2).write_item_2 k w).1.data k = some v2 := by
      rw [habd]
      exact hdm
    have him2 : (alookup ((ld.setitem k v2).write_item_2 k w).1.data_info k).isSome = true := by
      rw [habi, him]
      rfl
    rw [getitem_present _ k v2 hdm2 him2]

theorem c5_supersession_witness :
    (exPS.setitem 0 9).write_item_1 0 = (none, exPS.setitem 0 9) ∧
    (∀ w, ((exPS.setitem 0 9).write_item_2 0 w).1.data = (exPS.setitem 0 9).data ∧
          ((exPS.setitem 0 9).write_item_2 0 w).1.data_info = (exPS.setitem 0 9).data_info ∧
          ((exPS.setitem 0 9).write_item_2 0 w).1.time_to_key = (exPS.setitem 0 9).time_to_key) ∧
    ((exPS.setitem 0 9).getitem 0).1 = .ok 9 ∧
    (∀ w, ((((exPS.setitem 0 9).write_item_2 0 w).1).getitem 0).1 = .ok 9) :=
  c5_supersession exPS 0 9 (Or.inl (by decide))

/--
C6: immediately after set(k, v), the key's state is IN_MEMORY and get(k)
returns v; the returned value does not depend on the storage backend (the
same value comes back whatever the blob map or directory flag hold), so
no storage access is involved.
-/
theorem c6_get_after_set (ld : LargeDict) (k v : Nat) :
    alookup (ld.setitem k v).data_info k = some DataInfo.IN_MEMORY ∧
    ((ld.setitem k v).getitem k).1 = .ok v ∧
    alookup ((ld.setitem k v).getitem k).2.data_info k = some DataInfo.IN_MEMORY ∧
    (∀ dsk : List (Nat × Nat), ∀ sb : Bool,
      (({ ld.setitem k v with disk := dsk, storage_dir := sb }).getitem k).1 = .ok v) := by
  have hdm : alookup (ld.setitem k v).data k = some v := alookup_ainsert_self _ _ _
  have him : alookup (ld.setitem k v).data_info k = some DataInfo.IN_MEMORY :=
    alookup_ainsert_self _ _ _
  refine ⟨him, ?_, ?_, ?_⟩
  · rw [getitem_present _ k v hdm (by rw [him]; rfl)]
  · rw [getitem_present _ k v hdm (by rw [him]; rfl)]
    exact alookup_ainsert_self _ _ _
  · intro dsk sb
    have him1 : (alookup (ld.setitem k v).data_info k).isSome = true := by
      rw [him]
      rfl
    rw [getitem_present { ld.setitem k v with disk := dsk, storage_dir := sb } k v hdm him1]

/-- exSV after delete(0): key 0 is PRE_DELETE with its value still resident. -/
def exSV2 : LargeDict :=
  match exSV.delitem 0 with
  | .ok l => l
  | .error _ => exSV

/-- exSV2 after the delete task: key 0 has vanished from the table while a write task is still in flight. -/
def exGone : LargeDict := (exSV2.delete_item 0).2

theorem exSV2_delitem : exSV.delitem 0 = .ok exSV2 := rfl

theorem exGone_reachable : Reachable exGone :=
  ⟨LargeDict.init (some []), ⟨some [], rfl⟩, by
    have h1 : Relation.ReflTransGen Step (LargeDict.init (some [])) exP1 :=
      Relation.ReflTransGen.single (Step.set (LargeDict.init (some [])) 0 5)
    have h2 := Relation.ReflTransGen.tail h1 (Step.setwm exP1 0)
    have h3 := Relation.ReflTransGen.tail h2 (Step.sweep (exP1.set_in_memory_key_number 0))
    have h4 := Relation.ReflTransGen.tail h3 (Step.write1 exPS 0)
    have h5 := Relation.ReflTransGen.tail h4 (Step.del exSV 0 exSV2 exSV2_delitem)
    exact Relation.ReflTransGen.tail h5 (Step.deltask exSV2 0)⟩

/--
C7 counterexample: in the reachable state where key 0 was evicted, its
write task captured value 5 and is mid-save, and a delete completed
meanwhile (key gone from the table), the write task's second re-check
does not remove the orphaned blob: shutil.rmtree on the just-saved blob
file raises NotADirectoryError and the blob with value 5 stays on disk.
-/
theorem c7_counterexample :
    Reachable exGone ∧ alookup exGone.data_info 0 = none ∧
    alookup ((exGone.write_item_2 0 5).1).disk 0 = some 5 ∧
    (exGone.write_item_2 0 5).2 = some PyErr.notADirectoryError :=
  ⟨exGone_reachable, by decide, by decide, by decide⟩

/--
C7 (amended): the write task aborts with no effect unless the state is
still PRE_SAVING at its first re-check; otherwise it marks SAVING and
captures the value; after serializing, at its second re-check: when the
key vanished it attempts to remove the orphaned blob but dies of
NotADirectoryError (shutil.rmtree on the blob file), leaving the orphan
blob on disk and the table untouched; when the state is no longer SAVING
it aborts; otherwise it drops the value, marks IN_DISK and untracks the
key from the recency sequence.
-/
theorem c7_write_task (ld : LargeDict) (k w : Nat) (hn : ld.time_to_key.Nodup) :
    (alookup ld.data_info k = none → ld.write_item_1 k = (none, ld)) ∧
    (∀ st, alookup ld.data_info k = some st → st ≠ DataInfo.PRE_SAVING →
      ld.write_item_1 k = (none, ld)) ∧
    (∀ v, alookup ld.data_info k = some DataInfo.PRE_SAVING → alookup ld.data k = some v →
      ld.write_item_1 k =
        (some v, { ld with data_info := ainsert ld.data_info k DataInfo.SAVING })) ∧
    (ld.storage_dir = true → alookup ld.data_info k = none →
      alookup (ld.write_item_2 k w).1.disk k = some w ∧
      (ld.write_item_2 k w).2 = some PyErr.notADirectoryError ∧
      (ld.write_item_2 k w).1.data = ld.data ∧
      (ld.write_item_2 k w).1.data_info = ld.data_info ∧
      (ld.write_item_2 k w).1.time_to_key = ld.time_to_key) ∧
    (∀ st, alookup ld.data_info k = some st → st ≠ DataInfo.SAVING →
      (ld.write_item_2 k w).1.data = ld.data ∧
      (ld.write_item_2 k w).1.data_info = ld.data_info ∧
      (ld.write_item_2 k w).1.time_to_key = ld.time_to_key) ∧
    (ld.storage_dir = true → alookup ld.data_info k = some DataInfo.SAVING →
      alookup (ld.write_item_2 k w).1.data_info k = some DataInfo.IN_DISK ∧
      alookup (ld.write_item_2 k w).1.data k = none ∧
      k ∉ (ld.write_item_2 k w).1.time_to_key ∧
      alookup (ld.write_item_2 k w).1.disk k = some w) := by
  refine ⟨?_, ?_, ?_, ?_, ?_, ?_⟩
  · intro hnone
    unfold LargeDict.write_item_1
    rw [hnone]
  · intro st hst hne
    exact write_item_1_noop ld k st hst hne
  · intro v hps hd
    unfold LargeDict.write_item_1
    rw [hps]
    try dsimp only
    rw [if_pos rfl]
    try dsimp only
    rw [hd]
  · intro hsd hnone
    unfold LargeDict.write_item_2
    split
    · try dsimp only
      rw [hnone]
      try dsimp only
      exact ⟨alookup_ainsert_self _ _ _, rfl, rfl, rfl, rfl⟩
    · next hsd2 => exact absurd hsd hsd2
  · intro st hst hne
    exact write_item_2_abort ld k w st hst hne
  · intro hsd hsv
    unfold LargeDict.write_item_2
    split
    · try dsimp only
      rw [hsv]
      try dsimp only
      rw [if_pos rfl]
      try dsimp only
      refine ⟨alookup_ainsert_self _ _ _, alookup_aerase_self _ _, ?_, ?_⟩
      · intro hmem
        exact ((hn.mem_erase_iff).1 hmem).1 rfl
      · exact alookup_ainsert_self _ _ _
    · next hsd2 => exact absurd hsd hsd2

theorem c7_write_task_witness :
    (alookup exSV.data_info 0 = none → exSV.write_item_1 0 = (none, exSV)) ∧
    (∀ st, alookup exSV.data_info 0 = some st → st ≠ DataInfo.PRE_SAVING →
      exSV.write_item_1 0 = (none, exSV)) ∧
    (∀ v, alookup exSV.data_info 0 = some DataInfo.PRE_SAVING → alookup exSV.data 0 = some v →
      exSV.write_item_1 0 =
        (some v, { exSV with data_info := ainsert exSV.data_info 0 DataInfo.SAVING })) ∧
    (exSV.storage_dir = true → alookup exSV.data_info 0 = none →
      alookup (exSV.write_item_2 0 5).1.disk 0 = some 5 ∧
      (exSV.write_item_2 0 5).2 = some PyErr.notADirectoryError ∧
      (exSV.write_item_2 0 5).1.data = exSV.data ∧
      (exSV.write_item_2 0 5).1.data_info = exSV.data_info ∧
      (exSV.write_item_2 0 5).1.time_to_key = exSV.time_to_key) ∧
    (∀ st, alookup exSV.data_info 0 = some st → st ≠ DataInfo.SAVING →
      (exSV.write_item_2 0 5).1.data = exSV.data ∧
      (exSV.write_item_2 0 5).1.data_info = exSV.data_info ∧
      (exSV.write_item_2 0 5).1.time_to_key = exSV.time_to_key) ∧
    (exSV.storage_dir = true → alookup exSV.data_info 0 = some DataInfo.SAVING →
      alookup (exSV.write_item_2 0 5).1.data_info 0 = some DataInfo.IN_DISK ∧
      alookup (exSV.write_item_2 0 5).1.data 0 = none ∧
      0 ∉ (exSV.write_item_2 0 5).1.time_to_key ∧
      alookup (exSV.write_item_2 0 5).1.disk 0 = some 5) :=
  c7_write_task exSV 0 5 (by decide)

/--
C10: for a key whose value is in the in-memory map (and which has a table
entry), get returns that value and unconditionally resets the state to
IN_MEMORY whatever it was — including PRE_SAVING, SAVING and PRE_DELETE —
so a pending write task aborts at either re-check and a pending delete
task aborts, all as no-ops on the table.
-/
theorem c10_get_resets_in_memory (ld : LargeDict) (k v : Nat) (st : DataInfo)
    (hd : alookup ld.data k = some v) (hi : alookup ld.data_info k = some st) :
    (ld.getitem k).1 = .ok v ∧
    alookup (ld.getitem k).2.data_info k = some DataInfo.IN_MEMORY ∧
    (ld.getitem k).2.write_item_1 k = (none, (ld.getitem k).2) ∧
    (∀ w, ((ld.getitem k).2.write_item_2 k w).1.data = (ld.getitem k).2.data ∧
          ((ld.getitem k).2.write_item_2 k w).1.data_info = (ld.getitem k).2.data_info ∧
          ((ld.getitem k).2.write_item_2 k w).1.time_to_key = (ld.getitem k).2.time_to_key) ∧
    ((ld.getitem k).2.delete_item k).2 = (ld.getitem k).2 := by
  have hg := getitem_present ld k v hd (by rw [hi]; rfl)
  rw [hg]
  have him : alookup (ainsert ld.data_info k DataInfo.IN_MEMORY) k = some DataInfo.IN_MEMORY :=
    alookup_ainsert_self _ _ _
  refine ⟨rfl, him, ?_, ?_, ?_⟩
  · exact write_item_1_noop _ k DataInfo.IN_MEMORY him (by decide)
  · intro w
    exact write_item_2_abort _ k w DataInfo.IN_MEMORY him (by decide)
  · exact delete_item_state_noop _ k DataInfo.IN_MEMORY him (by decide)

theorem c10_get_resets_in_memory_witness :
    (exLd2.getitem 0).1 = .ok 5 ∧
    alookup (exLd2.getitem 0).2.data_info 0 = some DataInfo.IN_MEMORY ∧
    (exLd2.getitem 0).2.write_item_1 0 = (none, (exLd2.getitem 0).2) ∧
    (∀ w, ((exLd2.getitem 0).2.write_item_2 0 w).1.data = (exLd2.getitem 0).2.data ∧
          ((exLd2.getitem 0).2.write_item_2 0 w).1.data_info = (exLd2.getitem 0).2.data_info ∧
          ((exLd2.getitem 0).2.write_item_2 0 w).1.time_to_key = (exLd2.getitem 0).2.time_to_key) ∧
    ((exLd2.getitem 0).2.delete_item 0).2 = (exLd2.getitem 0).2 :=
  c10_get_resets_in_memory exLd2 0 5 DataInfo.PRE_DELETE (by decide) (by decide)

/--
C2: release on a store constructed with a storage directory runs the
permanent-flush path and then nevertheless removes the storage directory
and every blob in it, because lines 216-218 call rmtree(storage_dir)
whenever a storage directory is set.  Evaluated at a permanent store
holding one fresh entry: the flush demotes the entry, and release still
reports the directory removed and the blob map emptied.
-/
theorem c2_release_removes_dir :
    exP1.permanent = true ∧ exP1.storage_dir = true ∧
    (exP1.release).2 = true ∧ (exP1.release).1.disk = [] ∧
    (exDisk.release).2 = true ∧ (exDisk.release).1.disk = [] := by
  refine ⟨rfl, rfl, ?_, ?_, ?_, ?_⟩ <;> decide

/--
C8: with a flush-all requested and one key resident, the sweep demotes
the key (PRE_SAVING, enqueued on the write queue, sequence emptied) but
then, because nothing inside the loop clears flush_all_once, pops the
empty sequence and dies of IndexError (the Bool component) instead of
stopping when the sequence is empty.
-/
theorem c8_sweep_flush_all_crash :
    exLd3.flush_all_once = true ∧ exLd3.time_to_key = [0] ∧
    (exLd3.flush_old_items).2 = true ∧
    (exLd3.flush_old_items).1.time_to_key = [] ∧
    alookup (exLd3.flush_old_items).1.data_info 0 = some DataInfo.PRE_SAVING ∧
    (exLd3.flush_old_items).1.write_queue = [0] := by
  refine ⟨rfl, rfl, ?_, ?_, ?_, ?_⟩ <;> decide
